import Mathlib

/-!
Shallow embedding of the gungame server's lobby domain
(src/server/gungameserver/src/domain/logic.rs, domain/lobbies.rs,
tick/lobby_tick.rs, state/global_stats.rs) and proofs about it.

Wall-clock time is modelled as a rational number; every function that calls
the system clock in the source takes the current time as an explicit
parameter.  Rust's u32 counters are modelled as Nat (saturating_sub is Nat
subtraction).  HashMaps are modelled as association lists keyed by Nat.
-/

namespace GunGame

/-- Generic association-list lookup, mirroring HashMap::get. -/
def alookup {α : Type} : List (Nat × α) → Nat → Option α
  | [], _ => none
  | (k, v) :: rest, key => if k = key then some v else alookup rest key

/-- Replace the value stored at a key, mirroring mutation through
HashMap::get_mut; a missing key leaves the list unchanged. -/
def aset {α : Type} : List (Nat × α) → Nat → α → List (Nat × α)
  | [], _, _ => []
  | (k, v) :: rest, key, w => if k = key then (k, w) :: rest else (k, v) :: aset rest key w

/-- Remove the entry stored at a key, mirroring HashMap::remove. -/
def aerase {α : Type} : List (Nat × α) → Nat → List (Nat × α)
  | [], _ => []
  | (k, v) :: rest, key => if k = key then rest else (k, v) :: aerase rest key

/-- Modelled from the spec: weapon catalog entry (§3 "Weapon"); the file
utils/weapondb.rs is not under src/.  The `ammo` field is the magazine size
(the source tests read `weapon.ammo` for both current and max ammo). -/
structure Weapon where
  name : String
  damage : Nat
  fire_rate : ℚ
  reload_time : ℚ
  ammo : Nat
deriving Repr, DecidableEq

/-- Modelled from the spec: the weapon catalog, an immutable id-to-weapon
map (utils/weapondb.rs is not under src/). -/
structure WeaponDb where
  weapons : List (Nat × Weapon)
deriving Repr, DecidableEq

/-- Catalog lookup, mirroring WeaponDb::get. -/
def WeaponDb.get (db : WeaponDb) (id : Nat) : Option Weapon :=
  alookup db.weapons id

/-- Catalog membership, mirroring WeaponDb::contains. -/
def WeaponDb.contains (db : WeaponDb) (id : Nat) : Bool :=
  (db.get id).isSome

/-- Player record; the defining file state/lobby.rs is not under src/, but
the full field list is visible in the source test fixtures
(domain/logic.rs tests) and in spec §3. -/
structure Player where
  id : Nat
  name : String
  position : ℚ × ℚ × ℚ
  rotation : ℚ × ℚ × ℚ
  last_update : ℚ
  current_health : Nat
  max_health : Nat
  current_weapon_id : Nat
  current_ammo : Nat
  max_ammo : Nat
  is_reloading : Bool
  reload_end_time : Option ℚ
  last_shot_time : ℚ
  kills : Nat
  deaths : Nat
  score : Nat
  killstreak : Nat
  warned_at : Option ℚ
  is_dead : Bool
  respawn_time : Option ℚ
deriving Repr, DecidableEq

/-- Modelled from the spec: lobby container (§3 "Lobby"); state/lobby.rs is
not under src/.  Client addresses are kept as opaque strings; last-sync
snapshots are not needed by any claim and are kept as the set of keys. -/
structure Lobby where
  code : String
  max_players : Nat
  players : List (Nat × Player)
  client_addresses : List (Nat × String)
  dirty_players : List Nat
  last_sync_state : List Nat
deriving Repr, DecidableEq

/-- Modelled from the spec: Lobby::mark_dirty inserts the id into the
dirty set (§3 "dirty_players"); state/lobby.rs is not under src/. -/
def Lobby.mark_dirty (l : Lobby) (pid : Nat) : Lobby :=
  { l with dirty_players := l.dirty_players.insert pid }

/-- Kill event data for broadcasting (domain/logic.rs KillEvent). -/
structure KillEvent where
  killer_id : Nat
  killer_name : String
  victim_id : Nat
  victim_name : String
  weapon_id : Nat
  weapon_name : String
  killer_new_killstreak : Nat
deriving Repr, DecidableEq

/-- try_shoot (domain/logic.rs lines 19-59): validates ammo, fire rate and
reload state; on success consumes one round, stamps the shot time and marks
the shooter dirty.  `duration_since` fails when the clock is behind the
stored shot time, which the source maps to the "Time error" string. -/
def try_shoot (db : WeaponDb) (l : Lobby) (player_id : Nat) (now : ℚ) :
    Except String (Lobby × Bool) :=
  match alookup l.players player_id with
  | none => .error "Player not found"
  | some p =>
    if p.is_reloading then .ok (l, false)
    else if p.current_ammo = 0 then .ok (l, false)
    else
      match db.get p.current_weapon_id with
      | none => .error "Invalid weapon"
      | some w =>
        if now < p.last_shot_time then .error "Time error"
        else if now - p.last_shot_time < 1 / w.fire_rate then .ok (l, false)
        else
          let p1 := { p with current_ammo := p.current_ammo - 1, last_shot_time := now }
          .ok (({ l with players := aset l.players player_id p1 }).mark_dirty player_id, true)

/-- apply_damage (domain/logic.rs lines 62-78): range-checks the damage and
subtracts it from the target's health with underflow protection. -/
def apply_damage (l : Lobby) (target_id : Nat) (damage : Nat) :
    Except String Lobby :=
  match alookup l.players target_id with
  | none => .error "Player not found"
  | some p =>
    if damage = 0 ∨ damage > 100 then .error "Invalid damage amount"
    else
      let p1 := { p with current_health := p.current_health - damage }
      .ok (({ l with players := aset l.players target_id p1 }).mark_dirty target_id)

/-- start_reload (domain/logic.rs lines 81-106). -/
def start_reload (db : WeaponDb) (l : Lobby) (player_id : Nat) (now : ℚ) :
    Except String Lobby :=
  match alookup l.players player_id with
  | none => .error "Player not found"
  | some p =>
    if p.is_reloading ∨ p.current_ammo = p.max_ammo then .error "Cannot reload"
    else
      match db.get p.current_weapon_id with
      | none => .error "Weapon not found"
      | some w =>
        let p1 := { p with is_reloading := true,
                           reload_end_time := some (now + w.reload_time) }
        .ok (({ l with players := aset l.players player_id p1 }).mark_dirty player_id)

/-- Predicate for a finished reload: the source tests
`is_reloading && now >= end_time` on the stored deadline. -/
def reload_done (now : ℚ) (p : Player) : Bool :=
  p.is_reloading &&
    (match p.reload_end_time with
     | some e => decide (e ≤ now)
     | none => false)

/-- Per-player effect of the reload-completion pass. -/
def complete_reload (now : ℚ) (p : Player) : Player :=
  if reload_done now p then
    { p with current_ammo := p.max_ammo, is_reloading := false, reload_end_time := none }
  else p

/-- update_reload_states (domain/logic.rs lines 110-135): completes every
due reload, collects the ids of completed players (the source pushes the
`id` field) and marks them dirty in a second pass. -/
def update_reload_states (l : Lobby) (now : ℚ) : Lobby × List Nat :=
  let completed := (l.players.filter (fun kp => reload_done now kp.2)).map (fun kp => kp.2.id)
  let l1 : Lobby := { l with players := l.players.map (fun kp => (kp.1, complete_reload now kp.2)) }
  (completed.foldl Lobby.mark_dirty l1, completed)

/-- switch_weapon (domain/logic.rs lines 138-166): fails on an unknown
weapon, otherwise resets ammo to the magazine and cancels any reload. -/
def switch_weapon (db : WeaponDb) (l : Lobby) (player_id weapon_id : Nat) :
    Except String Lobby :=
  match alookup l.players player_id with
  | none => .error "Player not found"
  | some p =>
    match db.get weapon_id with
    | none => .error "Invalid weapon"
    | some w =>
      let p1 := { p with current_weapon_id := weapon_id,
                         current_ammo := w.ammo,
                         max_ammo := w.ammo,
                         is_reloading := false,
                         reload_end_time := none }
      .ok (({ l with players := aset l.players player_id p1 }).mark_dirty player_id)

/-- register_kill (domain/logic.rs lines 185-246): credits the killer,
then writes the victim's death state through a second mutable lookup (so a
self-kill sees the killer update first), and reports the kill event. -/
def register_kill (db : WeaponDb) (l : Lobby) (killer_id victim_id : Nat) (now : ℚ) :
    Except String (Lobby × KillEvent) :=
  match alookup l.players killer_id with
  | none => .error "Killer not found"
  | some killer =>
    match alookup l.players victim_id with
    | none => .error "Victim not found"
    | some victim =>
      match db.get killer.current_weapon_id with
      | none => .error "Invalid weapon"
      | some w =>
        let ks := killer.killstreak
        let killer1 := { killer with kills := killer.kills + 1,
                                     killstreak := ks + 1,
                                     score := killer.score + (100 + min ks 5 * 25) }
        let l1 : Lobby := { l with players := aset l.players killer_id killer1 }
        match alookup l1.players victim_id with
        | none => .error "Victim not found"
        | some v1 =>
          let v2 := { v1 with deaths := v1.deaths + 1,
                              killstreak := 0,
                              current_health := 0,
                              is_dead := true,
                              respawn_time := some (now + 3) }
          let l2 : Lobby := { l1 with players := aset l1.players victim_id v2 }
          let ev : KillEvent :=
            { killer_id := killer_id, killer_name := killer.name,
              victim_id := victim_id, victim_name := victim.name,
              weapon_id := killer.current_weapon_id, weapon_name := w.name,
              killer_new_killstreak := ks + 1 }
          .ok (((l2.mark_dirty killer_id).mark_dirty victim_id), ev)

/-- respawn_player (domain/logic.rs lines 249-264): resets position,
health, ammo and reload state.  The source does not touch `is_dead` or
`respawn_time`. -/
def respawn_player (l : Lobby) (player_id : Nat) : Except String Lobby :=
  match alookup l.players player_id with
  | none => .error "Player not found"
  | some p =>
    let p1 := { p with position := ((0 : ℚ), (1 : ℚ), (0 : ℚ)),
                       rotation := ((0 : ℚ), (0 : ℚ), (0 : ℚ)),
                       current_health := p.max_health,
                       current_ammo := p.max_ammo,
                       is_reloading := false,
                       reload_end_time := none }
    .ok (({ l with players := aset l.players player_id p1 }).mark_dirty player_id)

/-- Fresh player record built by add_player (domain/lobbies.rs lines 40-61). -/
def new_player (player_id : Nat) (name : String) (weapon_id : Nat) (w : Weapon) (now : ℚ) :
    Player :=
  { id := player_id, name := name,
    position := ((0 : ℚ), (1 : ℚ), (0 : ℚ)),
    rotation := ((0 : ℚ), (0 : ℚ), (0 : ℚ)),
    last_update := now,
    current_health := 100, max_health := 100,
    current_weapon_id := weapon_id,
    current_ammo := w.ammo, max_ammo := w.ammo,
    is_reloading := false, reload_end_time := none,
    last_shot_time := 0,
    kills := 0, deaths := 0, score := 0, killstreak := 0,
    warned_at := none, is_dead := false, respawn_time := none }

/-- add_player (domain/lobbies.rs lines 21-66). -/
def add_player (db : WeaponDb) (l : Lobby) (player_id : Nat) (name : String)
    (default_weapon_id : Nat) (now : ℚ) : Except String Lobby :=
  if l.max_players ≤ l.players.length then .error "Lobby is full"
  else if (alookup l.players player_id).isSome then .error "Player already exists"
  else
    match db.get default_weapon_id with
    | none => .error "Invalid default weapon"
    | some w =>
      let p := new_player player_id name default_weapon_id w now
      Except.ok (({ l with players := (player_id, p) :: l.players }).mark_dirty player_id)

/-- remove_player (domain/lobbies.rs lines 69-73): drops the player from
the player map, the address map and the sync snapshot. -/
def remove_player (l : Lobby) (player_id : Nat) : Lobby :=
  { l with players := aerase l.players player_id,
           client_addresses := aerase l.client_addresses player_id,
           last_sync_state := l.last_sync_state.erase player_id }

/-- update_position (domain/lobbies.rs lines 76-93). -/
def update_position (l : Lobby) (player_id : Nat) (pos rot : ℚ × ℚ × ℚ) (now : ℚ) :
    Except String Lobby :=
  match alookup l.players player_id with
  | none => .error "Player not found"
  | some p =>
    let p1 := { p with position := pos, rotation := rot, last_update := now }
    .ok (({ l with players := aset l.players player_id p1 }).mark_dirty player_id)

/-- Whole truncated seconds since the stored instant, mirroring
`duration_since(..).as_secs()`. -/
def elapsed_secs (now lu : ℚ) : Nat :=
  (now - lu).floor.toNat

/-- cleanup_inactive (domain/lobbies.rs lines 110-147): skips bot id 999
and any player whose clock is ahead of `now`; removes players past the
timeout; stamps `warned_at` for players past the truncated warning
threshold that were not warned before.  Returns (removed, warned). -/
def cleanup_inactive (l : Lobby) (timeout_secs : Nat) (warning_fraction : ℚ) (now : ℚ) :
    Lobby × List Nat × List Nat :=
  let warning_threshold : Nat := ((timeout_secs : ℚ) * warning_fraction).floor.toNat
  let live := l.players.filter (fun kp => kp.1 ≠ 999 ∧ kp.2.last_update ≤ now)
  let inactive := (live.filter (fun kp => timeout_secs < elapsed_secs now kp.2.last_update)).map Prod.fst
  let warned := (live.filter (fun kp =>
      ¬ timeout_secs < elapsed_secs now kp.2.last_update ∧
      warning_threshold < elapsed_secs now kp.2.last_update ∧
      kp.2.warned_at = none)).map Prod.fst
  let l1 := inactive.foldl remove_player l
  let l2 := warned.foldl (fun acc pid =>
      match alookup acc.players pid with
      | some p => { acc with players := aset acc.players pid { p with warned_at := some now } }
      | none => acc) l1
  (l2, inactive, warned)

/-- Shoot command arm of process_command (tick/lobby_tick.rs lines
254-268): on a successful shot the shooter's current weapon damage is
applied to the target; every failure is swallowed.  No kill registration
occurs on this path. -/
def process_shoot (db : WeaponDb) (l : Lobby) (player_id target_id : Nat) (now : ℚ) :
    Lobby :=
  match try_shoot db l player_id now with
  | .error _ => l
  | .ok (l1, false) => l1
  | .ok (l1, true) =>
    match alookup l1.players player_id with
    | none => l1
    | some p =>
      match db.get p.current_weapon_id with
      | none => l1
      | some w =>
        match apply_damage l1 target_id w.damage with
        | .ok l2 => l2
        | .error _ => l1

/-- Respawn phase of the tick (tick/lobby_tick.rs lines 104-125): collect
every dead player whose deadline has passed, respawn each, and record a
respawn event per successfully respawned player. -/
def respawn_phase (l : Lobby) (now : ℚ) : Lobby × List Nat :=
  let due := (l.players.filter (fun kp =>
      kp.2.is_dead &&
        (match kp.2.respawn_time with
         | some rt => decide (rt ≤ now)
         | none => false))).map Prod.fst
  due.foldl (fun acc pid =>
      match respawn_player acc.1 pid with
      | .ok l1 => (l1, acc.2 ++ [pid])
      | .error _ => acc) (l, [])

/-- Cleanup phase of the tick (tick/lobby_tick.rs lines 127-139): calls
cleanup_inactive with warning fraction 0.5, appends the removed ids to the
tick's departed list, and discards the warned list (the source binds it to
an underscore), so only removals flow onward. -/
def cleanup_phase (l : Lobby) (timeout_secs : Nat) (now : ℚ) : Lobby × List Nat :=
  let r := cleanup_inactive l timeout_secs (1 / 2) now
  (r.1, r.2.1)

/-- Global per-player stats record (state/global_stats.rs). -/
structure GlobalPlayerStats where
  player_id : Nat
  name : String
  total_kills : Nat
  total_deaths : Nat
  total_score : Nat
  games_played : Nat
  last_seen : ℚ
  created_at : ℚ
deriving Repr, DecidableEq

/-- GlobalPlayerStats::new (state/global_stats.rs lines 17-28). -/
def GlobalPlayerStats.init (player_id : Nat) (name : String) (now : ℚ) :
    GlobalPlayerStats :=
  { player_id := player_id, name := name,
    total_kills := 0, total_deaths := 0, total_score := 0,
    games_played := 0, last_seen := now, created_at := now }

/-- Concurrent stats store, modelled as an id-keyed association list. -/
structure GlobalStats where
  players : List (Nat × GlobalPlayerStats)
deriving Repr, DecidableEq

/-- GlobalStats::record_session (state/global_stats.rs lines 59-66):
inserts a fresh record when absent, then folds the session numbers in. -/
def record_session (gs : GlobalStats) (player_id : Nat) (name : String)
    (kills deaths score : Nat) (now : ℚ) : GlobalStats :=
  let base := (alookup gs.players player_id).getD (GlobalPlayerStats.init player_id name now)
  let updated := { base with
      name := name,
      total_kills := base.total_kills + kills,
      total_deaths := base.total_deaths + deaths,
      total_score := base.total_score + score,
      games_played := base.games_played + 1,
      last_seen := now }
  if (alookup gs.players player_id).isSome then
    { gs with players := aset gs.players player_id updated }
  else
    { gs with players := (player_id, updated) :: gs.players }

/-- Stats phase of the tick (tick/lobby_tick.rs lines 184-197): for every
id on the departed list, look the player up in the lobby as it stands at
the end of the tick and record the session if the lookup succeeds. -/
def stats_phase (gs : GlobalStats) (l : Lobby) (players_left : List Nat) (now : ℚ) :
    GlobalStats :=
  players_left.foldl (fun acc pid =>
      match alookup l.players pid with
      | some p => record_session acc p.id p.name p.kills p.deaths p.score now
      | none => acc) gs

/-- Tick slice for a departing player: the PlayerLeave arm of
process_command (tick/lobby_tick.rs lines 224-229) runs remove_player
during command dispatch, and the stats phase (lines 184-197) runs at the
end of the same tick on the already-pruned lobby. -/
def leave_then_stats (gs : GlobalStats) (l : Lobby) (leave_ids : List Nat) (now : ℚ) :
    Lobby × GlobalStats :=
  let l1 := leave_ids.foldl remove_player l
  (l1, stats_phase gs l1 leave_ids now)

/-!
Concrete fixtures for witnesses and counterexamples.  The weapon values
mirror the catalog entries exercised by the source tests: weapon 1
("Golden Friend", damage 20, fire rate 4/s, magazine 20, spec §8 scenario
1) and weapon 2 ("Prototype", magazine 8, domain/logic.rs
test_switch_weapon).
-/

/-- Weapon 1: "Golden Friend" (spec §8 scenario 1, server.rs tests). -/
def golden : Weapon :=
  { name := "Golden Friend", damage := 20, fire_rate := 4, reload_time := 2, ammo := 20 }

/-- Weapon 2: "Prototype" with magazine 8 (domain/logic.rs test_switch_weapon). -/
def proto : Weapon :=
  { name := "Prototype", damage := 35, fire_rate := 1, reload_time := 3, ammo := 8 }

/-- Test catalog with the two weapons the source tests exercise. -/
def dbW : WeaponDb := ⟨[(1, golden), (2, proto)]⟩

/-- Baseline test player, mirroring the fixture in the source tests. -/
def test_player (pid : Nat) : Player :=
  { id := pid, name := "P", position := (0, 1, 0), rotation := (0, 0, 0),
    last_update := 0, current_health := 100, max_health := 100,
    current_weapon_id := 1, current_ammo := 20, max_ammo := 20,
    is_reloading := false, reload_end_time := none, last_shot_time := 0,
    kills := 0, deaths := 0, score := 0, killstreak := 0,
    warned_at := none, is_dead := false, respawn_time := none }

/-- Victim on 20 health: one weapon-1 hit brings it to exactly 0. -/
def low_health_victim : Player := { test_player 2 with current_health := 20 }

/-- Two-player lobby: a ready shooter and a 20-health victim. -/
def lobby_shot : Lobby :=
  { code := "L", max_players := 8,
    players := [(1, test_player 1), (2, low_health_victim)],
    client_addresses := [], dirty_players := [], last_sync_state := [] }

/-- Dead player whose respawn deadline (5) has passed at time 10. -/
def dead_player : Player :=
  { test_player 1 with current_health := 0, is_dead := true, respawn_time := some 5 }

/-- Lobby holding only the dead player. -/
def lobby_dead : Lobby :=
  { code := "L", max_players := 8, players := [(1, dead_player)],
    client_addresses := [], dirty_players := [], last_sync_state := [] }

/-- Player with a running killstreak of 2. -/
def streak_player : Player := { test_player 1 with killstreak := 2 }

/-- Single-player lobby used for the self-kill counterexample. -/
def lobby_streak : Lobby :=
  { code := "L", max_players := 8, players := [(1, streak_player)],
    client_addresses := [], dirty_players := [], last_sync_state := [] }

/-- Two-player lobby with the killstreak-2 killer and a victim. -/
def lobby_streak2 : Lobby :=
  { code := "L", max_players := 8,
    players := [(1, streak_player), (2, test_player 2)],
    client_addresses := [], dirty_players := [], last_sync_state := [] }

/-- Idle player lobby: last activity at time 0. -/
def lobby_idle : Lobby :=
  { code := "L", max_players := 8, players := [(1, test_player 1)],
    client_addresses := [], dirty_players := [], last_sync_state := [] }

/-- Player with session stats worth recording. -/
def departing_player : Player :=
  { test_player 1 with kills := 2, deaths := 1, score := 250 }

/-- Lobby holding the departing player. -/
def lobby_depart : Lobby :=
  { code := "L", max_players := 8, players := [(1, departing_player)],
    client_addresses := [(1, "a")], dirty_players := [], last_sync_state := [1] }

/-- Dead shooter: zero health, is_dead set, full magazine. -/
def dead_shooter : Player :=
  { test_player 1 with current_health := 0, is_dead := true }

/-- Lobby with the dead shooter and a healthy target. -/
def lobby_dead_shooter : Lobby :=
  { code := "L", max_players := 8,
    players := [(1, dead_shooter), (2, test_player 2)],
    client_addresses := [], dirty_players := [], last_sync_state := [] }

/-- Half-empty magazine, used for the reload fixtures. -/
def reloading_candidate : Player := { test_player 1 with current_ammo := 10 }

/-- Lobby holding the reload candidate. -/
def lobby_reload : Lobby :=
  { code := "L", max_players := 8, players := [(1, reloading_candidate)],
    client_addresses := [], dirty_players := [], last_sync_state := [] }

/-!
Named result shapes: the source mutates one player through get_mut and
then calls mark_dirty; these helpers name the updated player record and
the combined write-and-mark step so theorem statements stay readable.
-/

/-- Write one player's record and mark it dirty. -/
def set_in (l : Lobby) (pid : Nat) (p : Player) : Lobby :=
  ({ l with players := aset l.players pid p }).mark_dirty pid

/-- Shooter after a successful shot: one round consumed, time stamped. -/
def shot_player (p : Player) (now : ℚ) : Player :=
  { p with current_ammo := p.current_ammo - 1, last_shot_time := now }

/-- Target after taking damage (saturating health decrement). -/
def damaged_player (p : Player) (damage : Nat) : Player :=
  { p with current_health := p.current_health - damage }

/-- Player after a reload has started with deadline `t`. -/
def reload_started_player (p : Player) (t : ℚ) : Player :=
  { p with is_reloading := true, reload_end_time := some t }

/-- Player after switching to weapon `wid` with catalog entry `w`. -/
def switched_player (p : Player) (wid : Nat) (w : Weapon) : Player :=
  { p with current_weapon_id := wid, current_ammo := w.ammo, max_ammo := w.ammo,
           is_reloading := false, reload_end_time := none }

/-- Player after respawn: note is_dead and respawn_time are untouched. -/
def respawned_player (p : Player) : Player :=
  { p with position := ((0 : ℚ), (1 : ℚ), (0 : ℚ)),
           rotation := ((0 : ℚ), (0 : ℚ), (0 : ℚ)),
           current_health := p.max_health, current_ammo := p.max_ammo,
           is_reloading := false, reload_end_time := none }

/-- Killer after being credited for a kill. -/
def credited_killer (p : Player) : Player :=
  { p with kills := p.kills + 1, killstreak := p.killstreak + 1,
           score := p.score + (100 + min p.killstreak 5 * 25) }

/-- Victim after a registered kill at time `now`. -/
def dead_victim (p : Player) (now : ℚ) : Player :=
  { p with deaths := p.deaths + 1, killstreak := 0, current_health := 0,
           is_dead := true, respawn_time := some (now + 3) }

/-- Player after the reload-completion pass refilled the magazine. -/
def reload_finished_player (p : Player) : Player :=
  { p with current_ammo := p.max_ammo, is_reloading := false, reload_end_time := none }

/-- Lobby produced by a successful register_kill on distinct players. -/
def kill_result (l : Lobby) (kid vid : Nat) (killer victim : Player) (now : ℚ) : Lobby :=
  Lobby.mark_dirty (Lobby.mark_dirty
    { l with players := aset (aset l.players kid (credited_killer killer)) vid
               (dead_victim victim now) } kid) vid

/-- Empty global stats store. -/
def gs0 : GlobalStats := ⟨[]⟩

/-- Per-player portion of the spec §8 universal invariants settled by C7:
health and ammo below their maxima and the reload flag tied to the
deadline option. -/
def PlayerInv (p : Player) : Prop :=
  p.current_health ≤ p.max_health ∧ p.current_ammo ≤ p.max_ammo ∧
    (p.is_reloading = true ↔ p.reload_end_time.isSome = true)

instance (p : Player) : Decidable (PlayerInv p) :=
  inferInstanceAs (Decidable (_ ∧ _ ∧ _))

/-- The player invariant over a whole player map. -/
def PlayersInv (ps : List (Nat × Player)) : Prop :=
  ∀ kp ∈ ps, PlayerInv kp.2

instance (ps : List (Nat × Player)) : Decidable (PlayersInv ps) :=
  List.decidableBAll _ ps

/-- The player invariant over every player of a lobby. -/
def LobbyInv (l : Lobby) : Prop :=
  PlayersInv l.players

instance (l : Lobby) : Decidable (LobbyInv l) :=
  inferInstanceAs (Decidable (PlayersInv l.players))

/-!
Lemmas about the association-list operations and the lobby helpers.
-/

theorem alookup_aset_of_some {α : Type} {ps : List (Nat × α)} {k : Nat} {p q : α}
    (h : alookup ps k = some p) : alookup (aset ps k q) k = some q := by
  induction ps with
  | nil => simp [alookup] at h
  | cons kv rest ih =>
    obtain ⟨k1, v1⟩ := kv
    by_cases hk : k1 = k
    · subst hk
      simp [alookup, aset]
    · simp only [alookup, aset, if_neg hk] at h ⊢
      exact ih h

theorem alookup_aset_ne {α : Type} {ps : List (Nat × α)} {k k' : Nat} {q : α}
    (h : k ≠ k') : alookup (aset ps k q) k' = alookup ps k' := by
  induction ps with
  | nil => simp [alookup, aset]
  | cons kv rest ih =>
    obtain ⟨k1, v1⟩ := kv
    by_cases hk : k1 = k
    · subst hk
      simp [alookup, aset, if_neg h, ih]
    · simp only [aset, if_neg hk, alookup]
      by_cases hk' : k1 = k'
      · simp [hk']
      · simp [if_neg hk', ih]

theorem alookup_mem {α : Type} {ps : List (Nat × α)} {k : Nat} {p : α}
    (h : alookup ps k = some p) : (k, p) ∈ ps := by
  induction ps with
  | nil => simp [alookup] at h
  | cons kv rest ih =>
    obtain ⟨k1, v1⟩ := kv
    have e : alookup ((k1, v1) :: rest) k
        = if k1 = k then some v1 else alookup rest k := rfl
    rw [e] at h
    by_cases hk : k1 = k
    · rw [if_pos hk, Option.some.injEq] at h
      subst hk
      subst h
      exact List.mem_cons_self _ _
    · rw [if_neg hk] at h
      exact List.mem_cons_of_mem _ (ih h)

theorem mem_aset {α : Type} {ps : List (Nat × α)} {k : Nat} {q : α} {kp : Nat × α}
    (h : kp ∈ aset ps k q) : kp ∈ ps ∨ kp.2 = q := by
  induction ps with
  | nil => simp [aset] at h
  | cons kv rest ih =>
    obtain ⟨k1, v1⟩ := kv
    have e : aset ((k1, v1) :: rest) k q
        = if k1 = k then (k1, q) :: rest else (k1, v1) :: aset rest k q := rfl
    rw [e] at h
    by_cases hk : k1 = k
    · rw [if_pos hk] at h
      rcases List.mem_cons.mp h with h1 | h1
      · right; rw [h1]
      · left; exact List.mem_cons_of_mem _ h1
    · rw [if_neg hk] at h
      rcases List.mem_cons.mp h with h1 | h1
      · left; rw [h1]; exact List.mem_cons_self _ _
      · rcases ih h1 with h2 | h2
        · left; exact List.mem_cons_of_mem _ h2
        · right; exact h2

theorem alookup_map_value {α : Type} (f : α → α) (ps : List (Nat × α)) (k : Nat) :
    alookup (ps.map (fun kp => (kp.1, f kp.2))) k = (alookup ps k).map f := by
  induction ps with
  | nil => simp [alookup]
  | cons kv rest ih =>
    obtain ⟨k1, v1⟩ := kv
    by_cases hk : k1 = k
    · subst hk
      simp [alookup]
    · simp [alookup, if_neg hk, ih]

theorem mark_dirty_players (l : Lobby) (pid : Nat) :
    (l.mark_dirty pid).players = l.players := rfl

theorem mem_dirty_mark_dirty_self (l : Lobby) (pid : Nat) :
    pid ∈ (l.mark_dirty pid).dirty_players := by
  simp [Lobby.mark_dirty, List.mem_insert_iff]

theorem mem_dirty_mark_dirty_of_mem {l : Lobby} {x : Nat} (pid : Nat)
    (h : x ∈ l.dirty_players) : x ∈ (l.mark_dirty pid).dirty_players := by
  simp [Lobby.mark_dirty, List.mem_insert_iff]
  right
  exact h

theorem foldl_mark_dirty_players (ids : List Nat) (l : Lobby) :
    (ids.foldl Lobby.mark_dirty l).players = l.players := by
  induction ids generalizing l with
  | nil => rfl
  | cons i rest ih => simp [List.foldl_cons, ih, mark_dirty_players]

theorem mem_foldl_mark_dirty {ids : List Nat} {x : Nat} (l : Lobby)
    (h : x ∈ ids ∨ x ∈ l.dirty_players) :
    x ∈ (ids.foldl Lobby.mark_dirty l).dirty_players := by
  induction ids generalizing l with
  | nil =>
    rcases h with h | h
    · simp at h
    · exact h
  | cons i rest ih =>
    simp only [List.foldl_cons]
    rcases h with h | h
    · rcases List.mem_cons.mp h with h1 | h1
      · subst h1
        exact ih _ (Or.inr (mem_dirty_mark_dirty_self l x))
      · exact ih _ (Or.inl h1)
    · exact ih _ (Or.inr (mem_dirty_mark_dirty_of_mem i h))

theorem id_mem_completed {ps : List (Nat × Player)} {k : Nat} {p : Player}
    (f : Nat × Player → Bool) (h : alookup ps k = some p) (hf : f (k, p) = true) :
    p.id ∈ (ps.filter f).map (fun kp => kp.2.id) := by
  induction ps with
  | nil => simp [alookup] at h
  | cons kv rest ih =>
    obtain ⟨k1, v1⟩ := kv
    have e : alookup ((k1, v1) :: rest) k
        = if k1 = k then some v1 else alookup rest k := rfl
    rw [e] at h
    by_cases hk : k1 = k
    · rw [if_pos hk, Option.some.injEq] at h
      subst hk
      subst h
      simp [List.filter_cons, hf]
    · rw [if_neg hk] at h
      simp only [List.filter_cons]
      by_cases hf1 : f (k1, v1) = true
      · simp only [hf1, if_pos, List.map_cons, List.mem_cons]
        exact Or.inr (ih h)
      · simp only [Bool.not_eq_true] at hf1
        simp only [hf1, Bool.false_eq_true, if_false]
        exact ih h

theorem try_shoot_not_found {db : WeaponDb} {l : Lobby} {pid : Nat} {now : ℚ}
    (h : alookup l.players pid = none) :
    try_shoot db l pid now = .error "Player not found" := by
  simp [try_shoot, h]

theorem try_shoot_reloading {db : WeaponDb} {l : Lobby} {pid : Nat} {now : ℚ} {p : Player}
    (hp : alookup l.players pid = some p) (hr : p.is_reloading = true) :
    try_shoot db l pid now = .ok (l, false) := by
  simp [try_shoot, hp, hr]

theorem try_shoot_no_ammo {db : WeaponDb} {l : Lobby} {pid : Nat} {now : ℚ} {p : Player}
    (hp : alookup l.players pid = some p) (ha : p.current_ammo = 0) :
    try_shoot db l pid now = .ok (l, false) := by
  by_cases hr : p.is_reloading
  · exact try_shoot_reloading hp hr
  · simp [try_shoot, hp, hr, ha]

theorem try_shoot_gate {db : WeaponDb} {l : Lobby} {pid : Nat} {now : ℚ} {p : Player}
    {w : Weapon} (hp : alookup l.players pid = some p)
    (hw : db.get p.current_weapon_id = some w)
    (ht : p.last_shot_time ≤ now)
    (hlt : now - p.last_shot_time < 1 / w.fire_rate) :
    try_shoot db l pid now = .ok (l, false) := by
  by_cases hr : p.is_reloading
  · exact try_shoot_reloading hp hr
  · by_cases ha : p.current_ammo = 0
    · exact try_shoot_no_ammo hp ha
    · have hlt1 : now - p.last_shot_time < w.fire_rate⁻¹ := by rwa [one_div] at hlt
      simp [try_shoot, hp, hr, ha, hw, not_lt.mpr ht, hlt1]

theorem try_shoot_success {db : WeaponDb} {l : Lobby} {pid : Nat} {now : ℚ} {p : Player}
    {w : Weapon} (hp : alookup l.players pid = some p)
    (hr : p.is_reloading = false) (ha : p.current_ammo ≠ 0)
    (hw : db.get p.current_weapon_id = some w)
    (ht : p.last_shot_time ≤ now)
    (hge : ¬ now - p.last_shot_time < 1 / w.fire_rate) :
    try_shoot db l pid now = .ok (set_in l pid (shot_player p now), true) := by
  have hge1 : ¬ now - p.last_shot_time < w.fire_rate⁻¹ := by rwa [one_div] at hge
  simp [try_shoot, hp, hr, ha, hw, not_lt.mpr ht, hge1, set_in, shot_player]

theorem apply_damage_not_found {l : Lobby} {tid damage : Nat}
    (h : alookup l.players tid = none) :
    apply_damage l tid damage = .error "Player not found" := by
  simp [apply_damage, h]

theorem apply_damage_success {l : Lobby} {tid damage : Nat} {p : Player}
    (hp : alookup l.players tid = some p)
    (hd0 : damage ≠ 0) (hd100 : damage ≤ 100) :
    apply_damage l tid damage = .ok (set_in l tid (damaged_player p damage)) := by
  simp [apply_damage, hp, hd0, not_lt.mpr hd100, set_in, damaged_player]

theorem start_reload_success {db : WeaponDb} {l : Lobby} {pid : Nat} {now : ℚ}
    {p : Player} {w : Weapon} (hp : alookup l.players pid = some p)
    (hr : p.is_reloading = false) (ha : p.current_ammo ≠ p.max_ammo)
    (hw : db.get p.current_weapon_id = some w) :
    start_reload db l pid now =
      .ok (set_in l pid (reload_started_player p (now + w.reload_time))) := by
  simp [start_reload, hp, hr, ha, hw, set_in, reload_started_player]

theorem switch_weapon_not_found {db : WeaponDb} {l : Lobby} {pid wid : Nat}
    (h : alookup l.players pid = none) :
    switch_weapon db l pid wid = .error "Player not found" := by
  simp [switch_weapon, h]

theorem switch_weapon_invalid {db : WeaponDb} {l : Lobby} {pid wid : Nat} {p : Player}
    (hp : alookup l.players pid = some p) (hw : db.get wid = none) :
    switch_weapon db l pid wid = .error "Invalid weapon" := by
  simp [switch_weapon, hp, hw]

theorem switch_weapon_success {db : WeaponDb} {l : Lobby} {pid wid : Nat} {p : Player}
    {w : Weapon} (hp : alookup l.players pid = some p) (hw : db.get wid = some w) :
    switch_weapon db l pid wid = .ok (set_in l pid (switched_player p wid w)) := by
  simp [switch_weapon, hp, hw, set_in, switched_player]

theorem respawn_player_success {l : Lobby} {pid : Nat} {p : Player}
    (hp : alookup l.players pid = some p) :
    respawn_player l pid = .ok (set_in l pid (respawned_player p)) := by
  simp [respawn_player, hp, set_in, respawned_player]

theorem register_kill_success {db : WeaponDb} {l : Lobby} {kid vid : Nat} {now : ℚ}
    {killer victim : Player} {w : Weapon}
    (hk : alookup l.players kid = some killer)
    (hv : alookup l.players vid = some victim)
    (hw : db.get killer.current_weapon_id = some w)
    (hne : kid ≠ vid) :
    register_kill db l kid vid now =
      .ok ((Lobby.mark_dirty (Lobby.mark_dirty
          { l with players := aset (aset l.players kid (credited_killer killer)) vid
                     (dead_victim victim now) } kid) vid),
        { killer_id := kid, killer_name := killer.name,
          victim_id := vid, victim_name := victim.name,
          weapon_id := killer.current_weapon_id, weapon_name := w.name,
          killer_new_killstreak := killer.killstreak + 1 }) := by
  have hv1 : alookup (aset l.players kid (credited_killer killer)) vid = some victim := by
    rw [alookup_aset_ne hne]
    exact hv
  simp only [credited_killer] at hv1
  simp [register_kill, hk, hv, hw, hv1, credited_killer, dead_victim]

theorem update_reload_players (l : Lobby) (now : ℚ) :
    (update_reload_states l now).1.players
      = l.players.map (fun kp => (kp.1, complete_reload now kp.2)) := by
  unfold update_reload_states
  dsimp only
  rw [foldl_mark_dirty_players]

theorem update_reload_lookup (l : Lobby) (now : ℚ) (k : Nat) :
    alookup (update_reload_states l now).1.players k
      = (alookup l.players k).map (complete_reload now) := by
  rw [update_reload_players]
  exact alookup_map_value _ _ _

theorem update_reload_dirty {l : Lobby} {now : ℚ} {k : Nat} {p : Player}
    (hp : alookup l.players k = some p) (hdone : reload_done now p = true) :
    p.id ∈ (update_reload_states l now).1.dirty_players := by
  unfold update_reload_states
  dsimp only
  apply mem_foldl_mark_dirty
  left
  exact id_mem_completed _ hp hdone

theorem complete_reload_not_done {now : ℚ} {p : Player}
    (h : reload_done now p = false) : complete_reload now p = p := by
  simp [complete_reload, h]

theorem complete_reload_done {now : ℚ} {p : Player}
    (h : reload_done now p = true) :
    complete_reload now p
      = { p with current_ammo := p.max_ammo, is_reloading := false,
                 reload_end_time := none } := by
  simp [complete_reload, h]

theorem set_in_players (l : Lobby) (pid : Nat) (q : Player) :
    (set_in l pid q).players = aset l.players pid q := rfl

theorem set_in_lookup_self {l : Lobby} {pid : Nat} {p : Player} (q : Player)
    (hp : alookup l.players pid = some p) :
    alookup (set_in l pid q).players pid = some q := by
  rw [set_in_players]
  exact alookup_aset_of_some hp

theorem set_in_lookup_ne {l : Lobby} {pid k : Nat} (q : Player) (h : pid ≠ k) :
    alookup (set_in l pid q).players k = alookup l.players k := by
  rw [set_in_players]
  exact alookup_aset_ne h

theorem set_in_dirty (l : Lobby) (pid : Nat) (q : Player) :
    pid ∈ (set_in l pid q).dirty_players :=
  mem_dirty_mark_dirty_self _ _

theorem PlayerInv_shot {p : Player} (now : ℚ) (h : PlayerInv p) :
    PlayerInv (shot_player p now) := by
  obtain ⟨h1, h2, h3⟩ := h
  exact ⟨h1, le_trans (Nat.sub_le _ _) h2, h3⟩

theorem PlayerInv_damaged {p : Player} (damage : Nat) (h : PlayerInv p) :
    PlayerInv (damaged_player p damage) := by
  obtain ⟨h1, h2, h3⟩ := h
  exact ⟨le_trans (Nat.sub_le _ _) h1, h2, h3⟩

theorem PlayerInv_reload_started {p : Player} (t : ℚ) (h : PlayerInv p) :
    PlayerInv (reload_started_player p t) := by
  obtain ⟨h1, h2, _⟩ := h
  exact ⟨h1, h2, by simp [reload_started_player]⟩

theorem PlayerInv_switched {p : Player} (wid : Nat) (w : Weapon) (h : PlayerInv p) :
    PlayerInv (switched_player p wid w) := by
  obtain ⟨h1, _, _⟩ := h
  exact ⟨h1, le_refl _, by simp [switched_player]⟩

theorem PlayerInv_respawned {p : Player} (h : PlayerInv p) :
    PlayerInv (respawned_player p) := by
  exact ⟨le_refl _, le_refl _, by simp [respawned_player]⟩

theorem PlayerInv_credited {p : Player} (h : PlayerInv p) :
    PlayerInv (credited_killer p) := by
  obtain ⟨h1, h2, h3⟩ := h
  exact ⟨h1, h2, h3⟩

theorem PlayerInv_dead_victim {p : Player} (now : ℚ) (h : PlayerInv p) :
    PlayerInv (dead_victim p now) := by
  obtain ⟨_, h2, h3⟩ := h
  exact ⟨Nat.zero_le _, h2, h3⟩

theorem PlayerInv_new (pid : Nat) (name : String) (wid : Nat) (w : Weapon) (now : ℚ) :
    PlayerInv (new_player pid name wid w now) := by
  exact ⟨le_refl _, le_refl _, by simp [new_player]⟩

theorem PlayerInv_complete {p : Player} (now : ℚ) (h : PlayerInv p) :
    PlayerInv (complete_reload now p) := by
  by_cases hd : reload_done now p = true
  · rw [complete_reload_done hd]
    obtain ⟨h1, _, _⟩ := h
    exact ⟨h1, le_refl _, by simp⟩
  · rw [complete_reload_not_done (Bool.not_eq_true _ |>.mp hd)]
    exact h

theorem PlayersInv_aset {ps : List (Nat × Player)} {k : Nat} {q : Player}
    (h : PlayersInv ps) (hq : PlayerInv q) : PlayersInv (aset ps k q) := by
  intro kp hkp
  rcases mem_aset hkp with h1 | h1
  · exact h kp h1
  · rw [h1]
    exact hq

theorem LobbyInv_set_in {l : Lobby} {pid : Nat} {q : Player}
    (h : LobbyInv l) (hq : PlayerInv q) : LobbyInv (set_in l pid q) :=
  PlayersInv_aset h hq

theorem LobbyInv_lookup {l : Lobby} {k : Nat} {p : Player}
    (h : LobbyInv l) (hp : alookup l.players k = some p) : PlayerInv p :=
  h (k, p) (alookup_mem hp)

theorem PlayersInv_lookup {ps : List (Nat × Player)} {k : Nat} {p : Player}
    (h : PlayersInv ps) (hp : alookup ps k = some p) : PlayerInv p :=
  h (k, p) (alookup_mem hp)

theorem PlayersInv_cons {ps : List (Nat × Player)} {k : Nat} {q : Player}
    (hq : PlayerInv q) (h : PlayersInv ps) : PlayersInv ((k, q) :: ps) := by
  intro kp hkp
  rcases List.mem_cons.mp hkp with h1 | h1
  · rw [h1]
    exact hq
  · exact h kp h1

/-!
Claim theorems.
-/

/-- C1: the claim says a lethal processed shot triggers RegisterKill in
the same tick.  The Shoot arm of process_command only calls try_shoot and
apply_damage; evaluating it on a shooter with a ready weapon and a
20-health target shows the target ends at 0 health yet stays not-dead with
deaths 0 and no respawn deadline, and the shooter's kill counters stay 0 —
no kill is registered anywhere on this path (the tick's kill_events vec is
declared empty and immutable at lobby_tick.rs:44). -/
theorem shoot_kill_is_never_registered :
    (alookup (process_shoot dbW lobby_shot 1 2 1).players 2).map Player.current_health
        = some 0 ∧
    (alookup (process_shoot dbW lobby_shot 1 2 1).players 2).map Player.is_dead
        = some false ∧
    (alookup (process_shoot dbW lobby_shot 1 2 1).players 2).map Player.deaths
        = some 0 ∧
    (alookup (process_shoot dbW lobby_shot 1 2 1).players 2).map Player.respawn_time
        = some none ∧
    (alookup (process_shoot dbW lobby_shot 1 2 1).players 1).map Player.kills
        = some 0 ∧
    (alookup (process_shoot dbW lobby_shot 1 2 1).players 1).map Player.killstreak
        = some 0 := by
  with_unfolding_all decide

/-- C2: the claim says the respawn transition clears is_dead and
respawn_time.  Evaluating the tick's respawn phase on a dead player whose
deadline has passed shows health, ammo, reload state and the dirty mark
are restored as claimed, but is_dead stays true and respawn_time stays
set, so the very next tick respawns the same player again. -/
theorem respawn_leaves_player_dead :
    (respawn_phase lobby_dead 10).2 = [1] ∧
    (alookup (respawn_phase lobby_dead 10).1.players 1).map Player.current_health
        = some 100 ∧
    (alookup (respawn_phase lobby_dead 10).1.players 1).map Player.current_ammo
        = some 20 ∧
    (alookup (respawn_phase lobby_dead 10).1.players 1).map Player.is_reloading
        = some false ∧
    1 ∈ (respawn_phase lobby_dead 10).1.dirty_players ∧
    (alookup (respawn_phase lobby_dead 10).1.players 1).map Player.is_dead
        = some true ∧
    (alookup (respawn_phase lobby_dead 10).1.players 1).map Player.respawn_time
        = some (some 5) ∧
    (respawn_phase (respawn_phase lobby_dead 10).1 10).2 = [1] := by
  with_unfolding_all decide

/-- C6: the claim says a warning event is emitted to the client.
Evaluating cleanup_inactive at timeout 15 and warning fraction 1/2 on a
player idle for 8 seconds shows the player lands on the warned list with
warned_at stamped and is not removed; but the tick's cleanup phase
(lobby_tick.rs:130) binds that warned list to an underscore and forwards
only the removals, so no inactivity-warning event is ever produced. -/
theorem inactivity_warning_is_discarded :
    (cleanup_inactive lobby_idle 15 (1 / 2) 8).2.2 = [1] ∧
    (alookup (cleanup_inactive lobby_idle 15 (1 / 2) 8).1.players 1).map Player.warned_at
        = some (some 8) ∧
    (cleanup_inactive lobby_idle 15 (1 / 2) 8).2.1 = [] ∧
    (cleanup_phase lobby_idle 15 8).2 = [] ∧
    (cleanup_phase lobby_idle 15 8).1 = (cleanup_inactive lobby_idle 15 (1 / 2) 8).1 := by
  with_unfolding_all decide

/-- C3: try_shoot returns false leaving the lobby unchanged when the
shooter is reloading, out of ammo, or inside the fire-rate window;
otherwise it consumes exactly one round, stamps last_shot_time, marks the
shooter dirty and returns true; a missing shooter yields the not-found
error. -/
theorem try_shoot_contract (db : WeaponDb) (l : Lobby) (pid : Nat) (now : ℚ) :
    (alookup l.players pid = none →
      try_shoot db l pid now = .error "Player not found") ∧
    (∀ p, alookup l.players pid = some p → p.is_reloading = true →
      try_shoot db l pid now = .ok (l, false)) ∧
    (∀ p, alookup l.players pid = some p → p.current_ammo = 0 →
      try_shoot db l pid now = .ok (l, false)) ∧
    (∀ p w, alookup l.players pid = some p →
      db.get p.current_weapon_id = some w → p.last_shot_time ≤ now →
      now - p.last_shot_time < 1 / w.fire_rate →
      try_shoot db l pid now = .ok (l, false)) ∧
    (∀ p w, alookup l.players pid = some p → p.is_reloading = false →
      p.current_ammo ≠ 0 → db.get p.current_weapon_id = some w →
      p.last_shot_time ≤ now → ¬ now - p.last_shot_time < 1 / w.fire_rate →
      try_shoot db l pid now = .ok (set_in l pid (shot_player p now), true) ∧
      alookup (set_in l pid (shot_player p now)).players pid = some (shot_player p now) ∧
      (shot_player p now).current_ammo = p.current_ammo - 1 ∧
      (shot_player p now).last_shot_time = now ∧
      pid ∈ (set_in l pid (shot_player p now)).dirty_players) := by
  refine ⟨fun h => try_shoot_not_found h,
    fun p hp hr => try_shoot_reloading hp hr,
    fun p hp ha => try_shoot_no_ammo hp ha,
    fun p w hp hw ht hlt => try_shoot_gate hp hw ht hlt,
    fun p w hp hr ha hw ht hge => ?_⟩
  refine ⟨try_shoot_success hp hr ha hw ht hge, set_in_lookup_self _ hp, rfl, rfl,
    set_in_dirty _ _ _⟩

/-- C3 witness: the contract applied to the concrete two-player lobby at
time 1 with weapon 1: the shot succeeds and consumes one round. -/
theorem try_shoot_contract_witness :
    try_shoot dbW lobby_shot 1 1 = .ok (set_in lobby_shot 1 (shot_player (test_player 1) 1), true) ∧
    (shot_player (test_player 1) 1).current_ammo = 19 :=
  ⟨((try_shoot_contract dbW lobby_shot 1 1).2.2.2.2 (test_player 1) golden rfl rfl
      (by decide) rfl (by with_unfolding_all decide) (by with_unfolding_all decide)).1,
    by decide⟩

theorem kill_result_players (l : Lobby) (kid vid : Nat) (killer victim : Player) (now : ℚ) :
    (kill_result l kid vid killer victim now).players
      = aset (aset l.players kid (credited_killer killer)) vid (dead_victim victim now) := rfl

/-- C4 counterexample: the claim as stated quantifies over every lobby
containing both killer and victim, which includes killer = victim.  On a
self-kill with prior killstreak 2 the call succeeds but the victim write
runs after the killer write on the same record, so the final killstreak is
0, not the claimed prior + 1 = 3. -/
theorem register_kill_self_counterexample :
    (register_kill dbW lobby_streak 1 1 0).toOption.map
        (fun r => (alookup r.1.players 1).map Player.killstreak) = some (some 0) ∧
    streak_player.killstreak = 2 := by
  with_unfolding_all decide

/-- C4 amended: for distinct killer and victim (and a killer weapon that
resolves in the catalog, without which the call fails), register_kill
credits the killer with one kill, killstreak prior + 1 and score
100 + 25·min(prior, 5), and writes the victim dead with deaths + 1,
killstreak 0, zero health and respawn deadline now + 3 s. -/
theorem register_kill_accounting (db : WeaponDb) (l : Lobby) (kid vid : Nat) (now : ℚ)
    (killer victim : Player) (w : Weapon)
    (hk : alookup l.players kid = some killer)
    (hv : alookup l.players vid = some victim)
    (hw : db.get killer.current_weapon_id = some w)
    (hne : kid ≠ vid) :
    (register_kill db l kid vid now).toOption.map Prod.fst
        = some (kill_result l kid vid killer victim now) ∧
    alookup (kill_result l kid vid killer victim now).players kid
        = some (credited_killer killer) ∧
    alookup (kill_result l kid vid killer victim now).players vid
        = some (dead_victim victim now) ∧
    (credited_killer killer).kills = killer.kills + 1 ∧
    (credited_killer killer).killstreak = killer.killstreak + 1 ∧
    (credited_killer killer).score = killer.score + (100 + 25 * min killer.killstreak 5) ∧
    (dead_victim victim now).deaths = victim.deaths + 1 ∧
    (dead_victim victim now).killstreak = 0 ∧
    (dead_victim victim now).current_health = 0 ∧
    (dead_victim victim now).is_dead = true ∧
    (dead_victim victim now).respawn_time = some (now + 3) := by
  have hv1 : alookup (aset l.players kid (credited_killer killer)) vid = some victim := by
    rw [alookup_aset_ne hne]
    exact hv
  refine ⟨?_, ?_, ?_, rfl, rfl, ?_, rfl, rfl, rfl, rfl, rfl⟩
  · rw [register_kill_success hk hv hw hne]
    rfl
  · rw [kill_result_players, alookup_aset_ne (Ne.symm hne)]
    exact alookup_aset_of_some hk
  · rw [kill_result_players]
    exact alookup_aset_of_some hv1
  · simp [credited_killer, Nat.mul_comm]

/-- C4 witness: the amended accounting applied to the two-player lobby
with a killstreak-2 killer. -/
theorem register_kill_accounting_witness :
    (register_kill dbW lobby_streak2 1 2 0).toOption.map Prod.fst
        = some (kill_result lobby_streak2 1 2 streak_player (test_player 2) 0) ∧
    alookup (kill_result lobby_streak2 1 2 streak_player (test_player 2) 0).players 1
        = some (credited_killer streak_player) := by
  have h := register_kill_accounting dbW lobby_streak2 1 2 0 streak_player (test_player 2)
    golden rfl rfl rfl (by decide)
  exact ⟨h.1, h.2.1⟩

/-- C5: a successful StartReload at t₀ with reload time r arms the
deadline t₀ + r; the reload-completion pass at any now ≥ t₀ + r (with
nothing in between) refills the magazine to max_ammo, clears is_reloading
and reload_end_time and marks the player dirty, while any player whose
deadline has not yet passed is left unchanged by that pass. -/
theorem reload_completion (db : WeaponDb) (l : Lobby) (pid : Nat) (t0 now : ℚ)
    (p : Player) (w : Weapon)
    (hp : alookup l.players pid = some p)
    (hid : p.id = pid)
    (hr : p.is_reloading = false)
    (ha : p.current_ammo ≠ p.max_ammo)
    (hw : db.get p.current_weapon_id = some w)
    (hnow : t0 + w.reload_time ≤ now) :
    start_reload db l pid t0
        = .ok (set_in l pid (reload_started_player p (t0 + w.reload_time))) ∧
    alookup (update_reload_states
        (set_in l pid (reload_started_player p (t0 + w.reload_time))) now).1.players pid
        = some (reload_finished_player p) ∧
    (reload_finished_player p).current_ammo = p.max_ammo ∧
    (reload_finished_player p).is_reloading = false ∧
    (reload_finished_player p).reload_end_time = none ∧
    pid ∈ (update_reload_states
        (set_in l pid (reload_started_player p (t0 + w.reload_time))) now).1.dirty_players ∧
    (∀ (m : Lobby) (k : Nat) (q : Player), alookup m.players k = some q →
      (∀ e, q.reload_end_time = some e → now < e) →
      alookup (update_reload_states m now).1.players k = some q) := by
  have hL1p : alookup (set_in l pid (reload_started_player p (t0 + w.reload_time))).players pid
      = some (reload_started_player p (t0 + w.reload_time)) := set_in_lookup_self _ hp
  have hdone : reload_done now (reload_started_player p (t0 + w.reload_time)) = true := by
    simp [reload_done, reload_started_player, hnow]
  refine ⟨start_reload_success hp hr ha hw, ?_, rfl, rfl, rfl, ?_, ?_⟩
  · rw [update_reload_lookup, hL1p, Option.map_some', complete_reload_done hdone]
    simp [reload_started_player, reload_finished_player]
  · have hd := update_reload_dirty hL1p hdone
    rwa [show (reload_started_player p (t0 + w.reload_time)).id = pid from hid] at hd
  · intro m k q hq hqe
    rw [update_reload_lookup, hq, Option.map_some']
    rw [complete_reload_not_done ?_]
    unfold reload_done
    cases hqe2 : q.reload_end_time with
    | none => simp
    | some e =>
      have he := hqe e hqe2
      simp [not_le.mpr he]

/-- C5 witness: the reload-candidate player reloads at time 0 with weapon
1 (reload time 2); at time 5 the completion pass has refilled it. -/
theorem reload_completion_witness :
    start_reload dbW lobby_reload 1 0
        = .ok (set_in lobby_reload 1
            (reload_started_player reloading_candidate (0 + golden.reload_time))) ∧
    alookup (update_reload_states
        (set_in lobby_reload 1
          (reload_started_player reloading_candidate (0 + golden.reload_time))) 5).1.players 1
        = some (reload_finished_player reloading_candidate) := by
  have h := reload_completion dbW lobby_reload 1 0 5 reloading_candidate golden
    rfl rfl rfl (by decide) rfl (by with_unfolding_all decide)
  exact ⟨h.1, h.2.1⟩

/-- C7: every gameplay rule preserves, for every player of the lobby, the
conjunction current_health ≤ max_health, current_ammo ≤ max_ammo and
is_reloading ⇔ reload_end_time.is_some. -/
theorem gameplay_rules_preserve_invariants (db : WeaponDb) (l : Lobby) (hInv : LobbyInv l) :
    (∀ pid name wid now l1, add_player db l pid name wid now = .ok l1 → LobbyInv l1) ∧
    (∀ pid now l1 b, try_shoot db l pid now = .ok (l1, b) → LobbyInv l1) ∧
    (∀ tid damage l1, apply_damage l tid damage = .ok l1 → LobbyInv l1) ∧
    (∀ pid now l1, start_reload db l pid now = .ok l1 → LobbyInv l1) ∧
    (∀ now, LobbyInv (update_reload_states l now).1) ∧
    (∀ pid wid l1, switch_weapon db l pid wid = .ok l1 → LobbyInv l1) ∧
    (∀ kid vid now l1 ev, register_kill db l kid vid now = .ok (l1, ev) → LobbyInv l1) ∧
    (∀ pid l1, respawn_player l pid = .ok l1 → LobbyInv l1) ∧
    (∀ pid pos rot now l1, update_position l pid pos rot now = .ok l1 → LobbyInv l1) := by
  refine ⟨?_, ?_, ?_, ?_, ?_, ?_, ?_, ?_, ?_⟩
  · intro pid name wid now l1 hok
    simp only [add_player] at hok
    split at hok
    · exact Except.noConfusion hok
    · split at hok
      · exact Except.noConfusion hok
      · split at hok
        · exact Except.noConfusion hok
        · injection hok with h
          subst h
          exact PlayersInv_cons (PlayerInv_new _ _ _ _ _) hInv
  · intro pid now l1 b hok
    simp only [try_shoot] at hok
    split at hok
    · exact Except.noConfusion hok
    · next p hl =>
      split at hok
      · injection hok with h
        injection h with h1 h2
        subst h1
        exact hInv
      · split at hok
        · injection hok with h
          injection h with h1 h2
          subst h1
          exact hInv
        · split at hok
          · exact Except.noConfusion hok
          · next w hw =>
            split at hok
            · exact Except.noConfusion hok
            · split at hok
              · injection hok with h
                injection h with h1 h2
                subst h1
                exact hInv
              · injection hok with h
                injection h with h1 h2
                subst h1
                exact PlayersInv_aset hInv (PlayerInv_shot now (LobbyInv_lookup hInv hl))
  · intro tid damage l1 hok
    simp only [apply_damage] at hok
    split at hok
    · exact Except.noConfusion hok
    · next p hl =>
      split at hok
      · exact Except.noConfusion hok
      · injection hok with h
        subst h
        exact PlayersInv_aset hInv (PlayerInv_damaged damage (LobbyInv_lookup hInv hl))
  · intro pid now l1 hok
    simp only [start_reload] at hok
    split at hok
    · exact Except.noConfusion hok
    · next p hl =>
      split at hok
      · exact Except.noConfusion hok
      · split at hok
        · exact Except.noConfusion hok
        · next w hw =>
          injection hok with h
          subst h
          exact PlayersInv_aset hInv
            (PlayerInv_reload_started (now + w.reload_time) (LobbyInv_lookup hInv hl))
  · intro now
    show PlayersInv _
    rw [update_reload_players]
    intro kp hkp
    obtain ⟨a, ha, rfl⟩ := List.mem_map.mp hkp
    exact PlayerInv_complete now (hInv a ha)
  · intro pid wid l1 hok
    simp only [switch_weapon] at hok
    split at hok
    · exact Except.noConfusion hok
    · next p hl =>
      split at hok
      · exact Except.noConfusion hok
      · next w hw =>
        injection hok with h
        subst h
        exact PlayersInv_aset hInv (PlayerInv_switched wid w (LobbyInv_lookup hInv hl))
  · intro kid vid now l1 ev hok
    simp only [register_kill] at hok
    split at hok
    · exact Except.noConfusion hok
    · next killer hk =>
      split at hok
      · exact Except.noConfusion hok
      · next victim hv =>
        split at hok
        · exact Except.noConfusion hok
        · next w hw =>
          split at hok
          · exact Except.noConfusion hok
          · next v1 hv1 =>
            injection hok with h
            injection h with h1 h2
            subst h1
            have hk1 : PlayersInv (aset l.players kid (credited_killer killer)) :=
              PlayersInv_aset hInv (PlayerInv_credited (LobbyInv_lookup hInv hk))
            have hv1inv : PlayerInv v1 := PlayersInv_lookup hk1 hv1
            exact PlayersInv_aset hk1 (PlayerInv_dead_victim now hv1inv)
  · intro pid l1 hok
    simp only [respawn_player] at hok
    split at hok
    · exact Except.noConfusion hok
    · next p hl =>
      injection hok with h
      subst h
      exact PlayersInv_aset hInv (PlayerInv_respawned (LobbyInv_lookup hInv hl))
  · intro pid pos rot now l1 hok
    simp only [update_position] at hok
    split at hok
    · exact Except.noConfusion hok
    · next p hl =>
      injection hok with h
      subst h
      refine PlayersInv_aset hInv ?_
      obtain ⟨h1, h2, h3⟩ := LobbyInv_lookup hInv hl
      exact ⟨h1, h2, h3⟩

/-- C7 witness: the two-player lobby satisfies the invariant and keeps it
after a concrete apply_damage. -/
theorem gameplay_rules_preserve_invariants_witness :
    LobbyInv (set_in lobby_shot 2 (damaged_player low_health_victim 20)) :=
  (gameplay_rules_preserve_invariants dbW lobby_shot (by with_unfolding_all decide)).2.2.1
    2 20 (set_in lobby_shot 2 (damaged_player low_health_victim 20))
    (by with_unfolding_all rfl)

/-- C8: with the player present, switch_weapon errors (leaving the lobby
unchanged) exactly when the weapon id is not in the catalog; on success it
installs the weapon, sets both ammo counters to the magazine size, cancels
any reload, and the completion pass can never later refill the magazine
for that player. -/
theorem switch_weapon_contract (db : WeaponDb) (l : Lobby) (pid wid : Nat) (p : Player)
    (hp : alookup l.players pid = some p) :
    (db.get wid = none → switch_weapon db l pid wid = .error "Invalid weapon") ∧
    (∀ e, switch_weapon db l pid wid = .error e →
      db.get wid = none ∧ e = "Invalid weapon") ∧
    (∀ w, db.get wid = some w →
      switch_weapon db l pid wid = .ok (set_in l pid (switched_player p wid w)) ∧
      alookup (set_in l pid (switched_player p wid w)).players pid
          = some (switched_player p wid w) ∧
      (switched_player p wid w).current_weapon_id = wid ∧
      (switched_player p wid w).current_ammo = w.ammo ∧
      (switched_player p wid w).max_ammo = w.ammo ∧
      (switched_player p wid w).is_reloading = false ∧
      (switched_player p wid w).reload_end_time = none ∧
      (∀ now, alookup (update_reload_states
          (set_in l pid (switched_player p wid w)) now).1.players pid
          = some (switched_player p wid w))) := by
  refine ⟨fun hw => switch_weapon_invalid hp hw, ?_, ?_⟩
  · intro e he
    cases hdb : db.get wid with
    | none =>
      rw [switch_weapon_invalid hp hdb] at he
      injection he with h
      exact ⟨rfl, h.symm⟩
    | some w =>
      rw [switch_weapon_success hp hdb] at he
      exact Except.noConfusion he
  · intro w hw
    refine ⟨switch_weapon_success hp hw, set_in_lookup_self _ hp, rfl, rfl, rfl, rfl, rfl, ?_⟩
    intro now
    rw [update_reload_lookup, set_in_lookup_self _ hp, Option.map_some',
      complete_reload_not_done (by simp [reload_done, switched_player])]

/-- C8 witness: switching the test player to weapon 2 succeeds with both
ammo counters at the Prototype magazine size 8. -/
theorem switch_weapon_contract_witness :
    switch_weapon dbW lobby_shot 1 2
        = .ok (set_in lobby_shot 1 (switched_player (test_player 1) 2 proto)) ∧
    (switched_player (test_player 1) 2 proto).current_ammo = 8 := by
  have h := (switch_weapon_contract dbW lobby_shot 1 2 (test_player 1) rfl).2.2 proto rfl
  exact ⟨h.1, by decide⟩

/-- C10: nothing in the shoot path checks the shooter's aliveness: a dead
shooter (is_dead set, zero health) that is not reloading, has ammo and
passes the fire-rate gate shoots successfully, and the Shoot command arm
then applies the full weapon damage to the target. -/
theorem dead_player_can_shoot (db : WeaponDb) (l : Lobby) (pid tid : Nat) (now : ℚ)
    (p q : Player) (w : Weapon)
    (hp : alookup l.players pid = some p)
    (hdead : p.is_dead = true)
    (hzero : p.current_health = 0)
    (hr : p.is_reloading = false)
    (ha : p.current_ammo ≠ 0)
    (hw : db.get p.current_weapon_id = some w)
    (ht : p.last_shot_time ≤ now)
    (hg : ¬ now - p.last_shot_time < 1 / w.fire_rate)
    (hq : alookup l.players tid = some q)
    (hne : pid ≠ tid)
    (hd0 : w.damage ≠ 0) (hd100 : w.damage ≤ 100) :
    try_shoot db l pid now = .ok (set_in l pid (shot_player p now), true) ∧
    process_shoot db l pid tid now
        = set_in (set_in l pid (shot_player p now)) tid (damaged_player q w.damage) ∧
    alookup (process_shoot db l pid tid now).players tid
        = some (damaged_player q w.damage) := by
  have hts := try_shoot_success hp hr ha hw ht hg
  have hL1pid : alookup (set_in l pid (shot_player p now)).players pid
      = some (shot_player p now) := set_in_lookup_self _ hp
  have hL1tid : alookup (set_in l pid (shot_player p now)).players tid = some q := by
    rw [set_in_lookup_ne _ hne]
    exact hq
  have hwshot : db.get (shot_player p now).current_weapon_id = some w := hw
  have had := apply_damage_success hL1tid hd0 hd100
  have hps : process_shoot db l pid tid now
      = set_in (set_in l pid (shot_player p now)) tid (damaged_player q w.damage) := by
    simp only [process_shoot, hts, hL1pid, hwshot, had]
  refine ⟨hts, hps, ?_⟩
  rw [hps]
  exact set_in_lookup_self _ hL1tid

/-- C10 witness: the dead shooter still lands a 20-damage hit on the
healthy target. -/
theorem dead_player_can_shoot_witness :
    alookup (process_shoot dbW lobby_dead_shooter 1 2 1).players 2
        = some (damaged_player (test_player 2) golden.damage) := by
  have h := dead_player_can_shoot dbW lobby_dead_shooter 1 2 1 dead_shooter (test_player 2)
    golden rfl rfl rfl rfl (by decide) rfl (by with_unfolding_all decide)
    (by with_unfolding_all decide) rfl (by decide) (by decide) (by decide)
  exact h.2.2

/-- C9: the claim says a departing player's session stats are recorded
into the global stats store in that tick.  The PlayerLeave arm removes the
player during command dispatch, and the stats block at the end of the tick
looks the id up in the already-pruned map; evaluating the composed tick
slice on a player with kills 2, deaths 1, score 250 shows the stats store
stays empty. -/
theorem departure_stats_never_recorded :
    departing_player.kills = 2 ∧
    departing_player.score = 250 ∧
    alookup (leave_then_stats gs0 lobby_depart [1] 5).1.players 1 = none ∧
    (leave_then_stats gs0 lobby_depart [1] 5).2 = gs0 := by
  with_unfolding_all decide

end GunGame
